import Mathlib

/-!
Verification development for the customer-behavior-analytics real-time
pipeline.  Python sources are embedded shallowly: dictionaries become
functions into `Option`, wall-clock instants become rationals (seconds),
`random.*` draws become explicit parameters carrying the drawn values,
exceptions become `Except PyErr`, and background threads become explicit
step functions on state records.
-/

namespace CustomerBehavior

/-- A Python exception value, as raised inside the pipeline. -/
inductive PyErr where
  | timeout
  | malformed
  | keyError
  | other (msg : String)
deriving DecidableEq

/-- A raw customer interaction event, as produced by
`streaming_simulator.py` (`generate_real_time_interaction`, lines 41-62).
Optional dict keys become `Option` fields; `processed_timestamp` is absent
until the processor stamps it (`streaming_processor.py` line 70). -/
structure Interaction where
  interaction_id : String
  customer_id : String
  touchpoint : String
  timestamp : String
  session_duration_minutes : ℚ
  pages_viewed : Option ℕ
  action_taken : String
  product_category : String
  revenue : ℚ
  device_type : Option String
  campaign_id : Option String
  customer_segment : Option String
  customer_age : ℕ
  city : Option String
  processed_timestamp : Option ℚ
deriving DecidableEq

namespace ApiManager

/-- One entry of `ExternalAPIManager.cache` (`api_manager.py` lines 49-52):
the stored `data` together with its `timestamp`. -/
structure CacheEntry (α : Type) where
  data : α
  timestamp : ℚ
deriving DecidableEq

/-- The response cache `self.cache`: a dict from cache key to entry.
The Python dict holds heterogeneous payloads under disjoint key prefixes
("weather_", "stock_", "news_"); we type each payload family separately. -/
abbrev Cache (α : Type) : Type := String → Option (CacheEntry α)

/-- `self.last_api_calls` (`api_manager.py` line 26): last recorded call
time per API name. -/
abbrev LastCalls : Type := String → Option ℚ

/-- `self.cache_duration` (`api_manager.py` line 23). -/
def cache_duration : ℚ := 300

/-- `self.rate_limits` (`api_manager.py` lines 27-31). -/
def rate_limits : List (String × ℚ) := [("weather", 1), ("news", 2), ("stocks", 1)]

/-- `self.rate_limits.get(api_name, 1)` (`api_manager.py` line 60). -/
def rate_limits_get (api_name : String) : ℚ :=
  match rate_limits.lookup api_name with
  | some v => v
  | none => 1

/-- `is_cache_valid` (`api_manager.py` lines 33-39). -/
def is_cache_valid {α : Type} (ttl : ℚ) (cache : Cache α) (now : ℚ) (cache_key : String) :
    Bool :=
  match cache cache_key with
  | none => false
  | some entry => decide (now - entry.timestamp < ttl)

/-- The cache-miss path of `get_cached_or_fetch` (`api_manager.py` lines
46-54): invoke the fetch function (its outcome is the `fetch_result`
argument; an exception propagates), and store a truthy result under the
key with the current timestamp.  The returned `Bool` records that the
fetch function was invoked. -/
def fetch_and_store {α : Type} (truthy : α → Bool) (cache : Cache α) (now : ℚ)
    (cache_key : String) (fetch_result : Except PyErr α) :
    Except PyErr α × Cache α × Bool :=
  match fetch_result with
  | .error e => (.error e, cache, true)
  | .ok data =>
    if truthy data then
      (.ok data, fun k => if k = cache_key then some ⟨data, now⟩ else cache k, true)
    else
      (.ok data, cache, true)

/-- `get_cached_or_fetch` (`api_manager.py` lines 41-54).  `truthy` embeds
Python truthiness of the payload (`if data:`).  Returns the value, the
updated cache, and whether the fetch function was invoked.  The
`(true, none)` combination is impossible (`is_cache_valid` requires an
entry); there the Python subscript would raise `KeyError`. -/
def get_cached_or_fetch {α : Type} (truthy : α → Bool) (ttl : ℚ) (cache : Cache α)
    (now : ℚ) (cache_key : String) (fetch_result : Except PyErr α) :
    Except PyErr α × Cache α × Bool :=
  if is_cache_valid ttl cache now cache_key then
    match cache cache_key with
    | some entry => (.ok entry.data, cache, false)
    | none => (.error .keyError, cache, false)
  else
    fetch_and_store truthy cache now cache_key fetch_result

/-- `respect_rate_limit` (`api_manager.py` lines 56-65).  `now` is the
wall clock at entry; the result is the time at which the call returns
(after any `time.sleep`) together with the updated `last_api_calls`,
which records that return time for `api_name`. -/
def respect_rate_limit (last_api_calls : LastCalls) (api_name : String) (now : ℚ) :
    ℚ × LastCalls :=
  match last_api_calls api_name with
  | some last =>
    let time_since_last := now - last
    let min_interval := rate_limits_get api_name
    let ret := if time_since_last < min_interval then now + (min_interval - time_since_last)
               else now
    (ret, fun k => if k = api_name then some ret else last_api_calls k)
  | none => (now, fun k => if k = api_name then some now else last_api_calls k)

/-- The weather payload built by `_fetch_weather_data` /
`_get_mock_weather_data` (`api_manager.py` lines 91-101, 109-119).
The ISO timestamp string is modelled as the rational instant. -/
structure WeatherData where
  temperature : ℚ
  humidity : ℚ
  weather_condition : String
  weather_description : String
  wind_speed : ℚ
  pressure : ℚ
  visibility : ℚ
  city : String
  timestamp : ℚ
deriving DecidableEq

/-- The random draws consumed by `_get_mock_weather_data`
(`api_manager.py` lines 106-119); each field carries the already-rounded
value the corresponding `random.*` call produced. -/
structure WeatherDraws where
  temperature : ℚ
  humidity : ℚ
  condition : Fin 4
  wind_speed : ℚ
  pressure : ℚ
  visibility : ℚ
deriving DecidableEq

/-- `_get_mock_weather_data` (`api_manager.py` lines 106-119). -/
def get_mock_weather_data (d : WeatherDraws) (now : ℚ) : WeatherData where
  temperature := d.temperature
  humidity := d.humidity
  weather_condition :=
    match d.condition.val with
    | 0 => "Clear"
    | 1 => "Clouds"
    | 2 => "Rain"
    | _ => "Snow"
  weather_description := "mock data"
  wind_speed := d.wind_speed
  pressure := d.pressure
  visibility := d.visibility
  city := "Mock City"
  timestamp := now

/-- The parsed JSON body of a successful OpenWeatherMap response, with the
fields `_fetch_weather_data` reads (`api_manager.py` lines 90-98).  A
timeout, HTTP error or malformed body is an `Except.error` at the call
site instead of a value of this type. -/
structure WeatherApiResponse where
  main_temp : ℚ
  main_humidity : ℚ
  weather_main : String
  weather_description : String
  wind_speed : ℚ
  main_pressure : ℚ
  visibility : ℚ
deriving DecidableEq

/-- `_fetch_weather_data` (`api_manager.py` lines 75-104): throttle via
`respect_rate_limit`, then either package the HTTP response or, on any
exception, fall back to mock data.  `http` is the outcome of the
`requests.get` + parse inside the `try` block. -/
def fetch_weather_data (last_api_calls : LastCalls) (city : String) (now : ℚ)
    (http : Except PyErr WeatherApiResponse) (d : WeatherDraws) :
    Except PyErr WeatherData × LastCalls :=
  let p := respect_rate_limit last_api_calls "weather" now
  match http with
  | .ok data =>
    (.ok { temperature := data.main_temp
           humidity := data.main_humidity
           weather_condition := data.weather_main
           weather_description := data.weather_description
           wind_speed := data.wind_speed
           pressure := data.main_pressure
           visibility := data.visibility / 1000
           city := city
           timestamp := p.1 }, p.2)
  | .error _ => (.ok (get_mock_weather_data d p.1), p.2)

/-- `get_weather_data` (`api_manager.py` lines 67-73): without an API key
return mock data directly; otherwise consult the cache under key
`"weather_" ++ city`, fetching on a miss.  The fetch function is invoked
lazily in Python; here its outcome and rate-limiter effect are computed
up front and the rate-limiter state is applied only when the cache
reports the fetch was invoked.  Returns (value, cache, last_api_calls). -/
def get_weather_data (weather_api_key : Option String) (cache : Cache WeatherData)
    (last_api_calls : LastCalls) (city : String) (now : ℚ)
    (http : Except PyErr WeatherApiResponse) (d : WeatherDraws) :
    Except PyErr WeatherData × Cache WeatherData × LastCalls :=
  match weather_api_key with
  | none => (.ok (get_mock_weather_data d now), cache, last_api_calls)
  | some _ =>
    let cache_key := "weather_" ++ city
    let f := fetch_weather_data last_api_calls city now http d
    let g := get_cached_or_fetch (fun _ => true) cache_duration cache now cache_key f.1
    (g.1, g.2.1, if g.2.2 then f.2 else last_api_calls)

/-- The stock payload built by `_fetch_stock_data` / `_get_mock_stock_data`
(`api_manager.py` lines 147-155, 164-172).  `change_percent` is a string
in the source (formatted / `%`-stripped); it is modelled as the numeric
value it denotes. -/
structure StockData where
  symbol : String
  price : ℚ
  change : ℚ
  change_percent : ℚ
  volume : ℤ
  market_sentiment : String
  timestamp : ℚ
deriving DecidableEq

/-- The random draws consumed by `_get_mock_stock_data`
(`api_manager.py` lines 160-172). -/
structure StockDraws where
  change : ℚ
  price : ℚ
  volume : ℤ
deriving DecidableEq

/-- `_get_mock_stock_data` (`api_manager.py` lines 160-172). -/
def get_mock_stock_data (d : StockDraws) (now : ℚ) : StockData where
  symbol := "SPY"
  price := d.price
  change := d.change
  change_percent := d.change / 420 * 100
  volume := d.volume
  market_sentiment := if 0 < d.change then "positive" else "negative"
  timestamp := now

/-- The parsed `Global Quote` object of a successful Alpha Vantage
response, with the fields `_fetch_stock_data` reads
(`api_manager.py` lines 144-152) already converted to numbers (a
conversion failure is an `Except.error` at the call site). -/
structure StockApiResponse where
  price : ℚ
  change : ℚ
  change_percent : ℚ
  volume : ℤ
deriving DecidableEq

/-- `_fetch_stock_data` (`api_manager.py` lines 129-158). -/
def fetch_stock_data (last_api_calls : LastCalls) (symbol : String) (now : ℚ)
    (http : Except PyErr StockApiResponse) (d : StockDraws) :
    Except PyErr StockData × LastCalls :=
  let p := respect_rate_limit last_api_calls "stocks" now
  match http with
  | .ok quote =>
    (.ok { symbol := symbol
           price := quote.price
           change := quote.change
           change_percent := quote.change_percent
           volume := quote.volume
           market_sentiment := if 0 < quote.change then "positive" else "negative"
           timestamp := p.1 }, p.2)
  | .error _ => (.ok (get_mock_stock_data d p.1), p.2)

/-- `get_stock_market_data` (`api_manager.py` lines 121-127). -/
def get_stock_market_data (alpha_vantage_key : Option String) (cache : Cache StockData)
    (last_api_calls : LastCalls) (symbol : String) (now : ℚ)
    (http : Except PyErr StockApiResponse) (d : StockDraws) :
    Except PyErr StockData × Cache StockData × LastCalls :=
  match alpha_vantage_key with
  | none => (.ok (get_mock_stock_data d now), cache, last_api_calls)
  | some _ =>
    let cache_key := "stock_" ++ symbol
    let f := fetch_stock_data last_api_calls symbol now http d
    let g := get_cached_or_fetch (fun _ => true) cache_duration cache now cache_key f.1
    (g.1, g.2.1, if g.2.2 then f.2 else last_api_calls)

/-- One article of a News API response, with the fields
`_fetch_news_sentiment` reads (`api_manager.py` lines 208-211). -/
structure NewsArticle where
  title : String
  description : String
deriving DecidableEq

/-- The parsed body of a successful News API response
(`api_manager.py` lines 200-201). -/
structure NewsApiResponse where
  articles : List NewsArticle
deriving DecidableEq

/-- `positive_keywords` (`api_manager.py` line 204). -/
def positive_keywords : List String :=
  ["growth", "increase", "positive", "success", "profit", "gain"]

/-- `negative_keywords` (`api_manager.py` line 205). -/
def negative_keywords : List String :=
  ["decline", "decrease", "negative", "loss", "drop", "fall"]

/-- Contiguous-sublist test on character lists. -/
def char_list_contains (haystack needle : List Char) : Bool :=
  match haystack with
  | [] => needle.isEmpty
  | _ :: rest => needle.isPrefixOf haystack || char_list_contains rest needle

/-- Python `word in text` on strings: substring containment. -/
def contains_word (text word : String) : Bool :=
  char_list_contains text.toList word.toList

/-- The per-article keyword score of `_fetch_news_sentiment`
(`api_manager.py` lines 208-221). -/
def article_sentiment_score (article : NewsArticle) : ℤ :=
  let text := article.title.toLower ++ " " ++ article.description.toLower
  let positive_count := positive_keywords.countP (fun word => contains_word text word)
  let negative_count := negative_keywords.countP (fun word => contains_word text word)
  if positive_count > negative_count then 1
  else if negative_count > positive_count then -1
  else 0

/-- The news payload built by `_fetch_news_sentiment` /
`_get_mock_news_sentiment` (`api_manager.py` lines 225-231, 240-246). -/
structure NewsData where
  query : String
  sentiment_score : ℚ
  sentiment_label : String
  articles_analyzed : ℕ
  timestamp : ℚ
deriving DecidableEq

/-- The random draws consumed by `_get_mock_news_sentiment`
(`api_manager.py` lines 236-246). -/
structure NewsDraws where
  sentiment_score : ℚ
  articles_analyzed : ℕ
deriving DecidableEq

/-- `_get_mock_news_sentiment` (`api_manager.py` lines 236-246). -/
def get_mock_news_sentiment (d : NewsDraws) (now : ℚ) : NewsData where
  query := "retail shopping"
  sentiment_score := d.sentiment_score
  sentiment_label :=
    if 0 < d.sentiment_score then "positive"
    else if d.sentiment_score < 0 then "negative"
    else "neutral"
  articles_analyzed := d.articles_analyzed
  timestamp := now

/-- Python `round(x, 2)`, used on the average sentiment
(`api_manager.py` line 227).  Mathlib `round` resolves exact half-cent
ties away from even where Python rounds to even; no claim depends on a
tie. -/
def round2 (x : ℚ) : ℚ := (round (x * 100) : ℤ) / 100

/-- `_fetch_news_sentiment` (`api_manager.py` lines 182-234). -/
def fetch_news_sentiment (last_api_calls : LastCalls) (query : String) (now : ℚ)
    (http : Except PyErr NewsApiResponse) (d : NewsDraws) :
    Except PyErr NewsData × LastCalls :=
  let p := respect_rate_limit last_api_calls "news" now
  match http with
  | .ok data =>
    let sentiment_scores := data.articles.map article_sentiment_score
    let avg_sentiment : ℚ :=
      if sentiment_scores.isEmpty then 0
      else (sentiment_scores.sum : ℚ) / (sentiment_scores.length : ℚ)
    (.ok { query := query
           sentiment_score := round2 avg_sentiment
           sentiment_label :=
             if 0 < avg_sentiment then "positive"
             else if avg_sentiment < 0 then "negative"
             else "neutral"
           articles_analyzed := data.articles.length
           timestamp := p.1 }, p.2)
  | .error _ => (.ok (get_mock_news_sentiment d p.1), p.2)

/-- `get_news_sentiment` (`api_manager.py` lines 174-180). -/
def get_news_sentiment (news_api_key : Option String) (cache : Cache NewsData)
    (last_api_calls : LastCalls) (query : String) (now : ℚ)
    (http : Except PyErr NewsApiResponse) (d : NewsDraws) :
    Except PyErr NewsData × Cache NewsData × LastCalls :=
  match news_api_key with
  | none => (.ok (get_mock_news_sentiment d now), cache, last_api_calls)
  | some _ =>
    let cache_key := "news_" ++ query
    let f := fetch_news_sentiment last_api_calls query now http d
    let g := get_cached_or_fetch (fun _ => true) cache_duration cache now cache_key f.1
    (g.1, g.2.1, if g.2.2 then f.2 else last_api_calls)

/-- The payload of `get_economic_indicators` (`api_manager.py`
lines 248-258). -/
structure EconomicData where
  inflation_rate : ℚ
  unemployment_rate : ℚ
  consumer_confidence : ℚ
  gdp_growth : ℚ
  interest_rate : ℚ
  timestamp : ℚ
deriving DecidableEq

/-- The random draws consumed by `get_economic_indicators`. -/
structure EconDraws where
  inflation_rate : ℚ
  unemployment_rate : ℚ
  consumer_confidence : ℚ
  gdp_growth : ℚ
  interest_rate : ℚ
deriving DecidableEq

/-- `get_economic_indicators` (`api_manager.py` lines 248-258): pure mock
data, never fails. -/
def get_economic_indicators (d : EconDraws) (now : ℚ) : EconomicData where
  inflation_rate := d.inflation_rate
  unemployment_rate := d.unemployment_rate
  consumer_confidence := d.consumer_confidence
  gdp_growth := d.gdp_growth
  interest_rate := d.interest_rate
  timestamp := now

/-- The payload of `get_geographic_data` (`api_manager.py`
lines 273-279). -/
structure GeoData where
  city : String
  population : ℕ
  median_income : ℕ
  timezone : String
  timestamp : ℚ
deriving DecidableEq

/-- `city_data` (`api_manager.py` lines 263-268). -/
def city_data : List (String × ℕ × ℕ × String) :=
  [("New York", 8400000, 65000, "EST"),
   ("Los Angeles", 4000000, 62000, "PST"),
   ("Chicago", 2700000, 58000, "CST"),
   ("Houston", 2300000, 55000, "CST")]

/-- `get_geographic_data` (`api_manager.py` lines 260-279): a fixed
lookup table with a default, never fails. -/
def get_geographic_data (city : String) (now : ℚ) : GeoData :=
  let default_data : ℕ × ℕ × String := (1000000, 60000, "EST")
  let data := (city_data.lookup city).getD default_data
  { city := city
    population := data.1
    median_income := data.2.1
    timezone := data.2.2
    timestamp := now }

/-- The mutable fields of `ExternalAPIManager` (`api_manager.py`
lines 15-31). -/
structure ApiState where
  weather_api_key : Option String
  news_api_key : Option String
  alpha_vantage_key : Option String
  weather_cache : Cache WeatherData
  stock_cache : Cache StockData
  news_cache : Cache NewsData
  last_api_calls : LastCalls

/-- An interaction after `enrich_interaction` merged the five enrichment
categories into it (`api_manager.py` lines 281-324). -/
structure EnrichedInteraction where
  base : Interaction
  weather_temperature : ℚ
  weather_condition : String
  weather_humidity : ℚ
  market_sentiment : String
  market_change_percent : ℚ
  news_sentiment : String
  news_sentiment_score : ℚ
  inflation_rate : ℚ
  consumer_confidence : ℚ
  city_population : ℕ
  city_median_income : ℕ
deriving DecidableEq

/-- `enrich_interaction` (`api_manager.py` lines 281-324): sequentially
attach weather, market, news, economic and geographic data.  Each `http`
argument is the outcome of that category's network call; a raised
exception anywhere would propagate as `Except.error`. -/
def enrich_interaction (st : ApiState) (interaction : Interaction) (now : ℚ)
    (weather_http : Except PyErr WeatherApiResponse)
    (stock_http : Except PyErr StockApiResponse)
    (news_http : Except PyErr NewsApiResponse)
    (wd : WeatherDraws) (sd : StockDraws) (nd : NewsDraws) (ed : EconDraws) :
    Except PyErr EnrichedInteraction × ApiState :=
  let customer_city := interaction.city.getD "New York"
  let w := get_weather_data st.weather_api_key st.weather_cache st.last_api_calls
    customer_city now weather_http wd
  let st1 : ApiState := { st with weather_cache := w.2.1, last_api_calls := w.2.2 }
  match w.1 with
  | .error e => (.error e, st1)
  | .ok weather_data =>
    let s := get_stock_market_data st1.alpha_vantage_key st1.stock_cache st1.last_api_calls
      "SPY" now stock_http sd
    let st2 : ApiState := { st1 with stock_cache := s.2.1, last_api_calls := s.2.2 }
    match s.1 with
    | .error e => (.error e, st2)
    | .ok stock_data =>
      let n := get_news_sentiment st2.news_api_key st2.news_cache st2.last_api_calls
        "retail shopping" now news_http nd
      let st3 : ApiState := { st2 with news_cache := n.2.1, last_api_calls := n.2.2 }
      match n.1 with
      | .error e => (.error e, st3)
      | .ok news_data =>
        let economic_data := get_economic_indicators ed now
        let geo_data := get_geographic_data customer_city now
        (.ok { base := interaction
               weather_temperature := weather_data.temperature
               weather_condition := weather_data.weather_condition
               weather_humidity := weather_data.humidity
               market_sentiment := stock_data.market_sentiment
               market_change_percent := stock_data.change_percent
               news_sentiment := news_data.sentiment_label
               news_sentiment_score := news_data.sentiment_score
               inflation_rate := economic_data.inflation_rate
               consumer_confidence := economic_data.consumer_confidence
               city_population := geo_data.population
               city_median_income := geo_data.median_income }, st3)

end ApiManager

namespace StreamingProcessor

open ApiManager

/-- Appending to a `collections.deque(maxlen := n)`: the newest item is
appended and the oldest items beyond the capacity are discarded. -/
def deque_push {α : Type} (maxlen : ℕ) (xs : List α) (x : α) : List α :=
  let ys := xs ++ [x]
  if maxlen < ys.length then ys.drop (ys.length - maxlen) else ys

/-- One per-weather-condition accumulator of
`current_metrics['weather_impact']` (`streaming_processor.py`
lines 84-94). -/
structure WeatherStats where
  total_revenue : ℚ
  interaction_count : ℕ
  avg_revenue : ℚ
deriving DecidableEq

/-- One per-news-sentiment accumulator of
`current_metrics['sentiment_impact']` (`streaming_processor.py`
lines 105-116). -/
structure SentimentStats where
  conversion_rate : ℚ
  avg_revenue : ℚ
  count : ℕ
deriving DecidableEq

/-- `self.current_metrics` (`streaming_processor.py` lines 30-42).
Dicts keyed by strings become functions into `Option`; the customer set
becomes a `Finset`. -/
structure CurrentMetrics where
  total_interactions_today : ℕ
  total_revenue_today : ℚ
  active_customers : Finset String
  touchpoint_counts : String → ℕ
  conversion_rate_window : ℚ
  avg_session_duration : ℚ
  weather_impact : String → Option WeatherStats
  market_correlation : ℚ
  sentiment_impact : String → Option SentimentStats

/-- The initial `current_metrics` built in `__init__`
(`streaming_processor.py` lines 30-42).  `touchpoint_counts` is an empty
dict: every touchpoint is absent, i.e. counts 0. -/
def initial_current_metrics : CurrentMetrics where
  total_interactions_today := 0
  total_revenue_today := 0
  active_customers := ∅
  touchpoint_counts := fun _ => 0
  conversion_rate_window := 0
  avg_session_duration := 0
  weather_impact := fun _ => none
  market_correlation := 0
  sentiment_impact := fun _ => none

/-- The ring buffer of enriched events: on enrichment failure the raw
interaction is appended instead (`streaming_processor.py` lines 56, 61). -/
abbrev EnrichedEntry : Type := Sum Interaction EnrichedInteraction

/-- The mutable fields of `EnhancedRealTimeDataProcessor`
(`streaming_processor.py` lines 19-45).  Times are rationals in seconds;
`window_size` is in minutes as in the source. -/
structure ProcessorState where
  window_size : ℚ
  interactions_buffer : List Interaction
  enriched_interactions : List EnrichedEntry
  enrichment_queue : List Interaction
  current_metrics : CurrentMetrics
  last_update : ℚ

/-- A fresh processor as built by `__init__` at instant `now`
(`streaming_processor.py` lines 19-46). -/
def initial_processor_state (window_size_minutes : ℚ) (now : ℚ) : ProcessorState where
  window_size := window_size_minutes
  interactions_buffer := []
  enriched_interactions := []
  enrichment_queue := []
  current_metrics := initial_current_metrics
  last_update := now

/-- `calculate_window_metrics` (`streaming_processor.py` lines 263-286):
filter the buffer to events whose `processed_timestamp` (defaulting to
`now`) is after `now` minus the window, then recompute the window
conversion rate and the mean session duration from that snapshot. -/
def calculate_window_metrics (s : ProcessorState) (now : ℚ) : ProcessorState :=
  if s.interactions_buffer.isEmpty then s
  else
    let cutoff_time := now - s.window_size * 60
    let recent_interactions := s.interactions_buffer.filter
      (fun i => decide (cutoff_time < i.processed_timestamp.getD now))
    if recent_interactions.isEmpty then s
    else
      let conversions := recent_interactions.countP (fun i => decide (0 < i.revenue))
      let n := recent_interactions.length
      { s with current_metrics :=
        { s.current_metrics with
          conversion_rate_window := if 0 < n then ((conversions : ℚ) / (n : ℚ)) * 100 else 0
          avg_session_duration :=
            (recent_interactions.map (fun i => i.session_duration_minutes)).sum / (n : ℚ) } }

/-- `update_real_time_metrics` (`streaming_processor.py` lines 243-261):
bump the daily totals, the active-customer set and the touchpoint
counter, then run the window recompute if at least 60 seconds have
passed since `last_update`. -/
def update_real_time_metrics (s : ProcessorState) (interaction : Interaction) (now : ℚ) :
    ProcessorState :=
  let m := s.current_metrics
  let m2 : CurrentMetrics :=
    { m with
      total_interactions_today := m.total_interactions_today + 1
      total_revenue_today := m.total_revenue_today + interaction.revenue
      active_customers := insert interaction.customer_id m.active_customers
      touchpoint_counts := fun t =>
        if t = interaction.touchpoint then m.touchpoint_counts t + 1
        else m.touchpoint_counts t }
  let s2 := { s with current_metrics := m2 }
  if 60 ≤ now - s2.last_update then
    { calculate_window_metrics s2 now with last_update := now }
  else s2

/-- `add_interaction` (`streaming_processor.py` lines 68-76): stamp the
event, append it to the 10000-slot ring buffer and to the enrichment
queue, then update the running metrics. -/
def add_interaction (s : ProcessorState) (interaction : Interaction) (now : ℚ) :
    ProcessorState :=
  let i := { interaction with processed_timestamp := some now }
  let s2 := { s with
    interactions_buffer := deque_push 10000 s.interactions_buffer i
    enrichment_queue := s.enrichment_queue ++ [i] }
  update_real_time_metrics s2 i now

/-- `add_interactions_batch` (`streaming_processor.py` lines 238-241),
with each event paired with the instant at which it is added. -/
def add_interactions_batch (s : ProcessorState) (timed : List (ℚ × Interaction)) :
    ProcessorState :=
  timed.foldl (fun acc p => add_interaction acc p.2 p.1) s

/-- `update_external_metrics` (`streaming_processor.py` lines 78-116):
fold one enriched event into the weather-condition accumulators, the
market-correlation score and the news-sentiment accumulators. -/
def update_external_metrics (m : CurrentMetrics) (e : EnrichedInteraction) :
    CurrentMetrics :=
  let weather_condition := e.weather_condition
  let revenue := e.base.revenue
  let ws := (m.weather_impact weather_condition).getD
    { total_revenue := 0, interaction_count := 0, avg_revenue := 0 }
  let ws2 : WeatherStats :=
    { total_revenue := ws.total_revenue + revenue
      interaction_count := ws.interaction_count + 1
      avg_revenue := (ws.total_revenue + revenue) / ((ws.interaction_count : ℚ) + 1) }
  let market_correlation :=
    if e.market_sentiment = "positive" ∧ 0 < revenue then m.market_correlation + 1/10
    else if e.market_sentiment = "negative" ∧ revenue = 0 then m.market_correlation + 1/10
    else m.market_correlation
  let news_sentiment := e.news_sentiment
  let ss := (m.sentiment_impact news_sentiment).getD
    { conversion_rate := 0, avg_revenue := 0, count := 0 }
  let count2 := ss.count + 1
  let ss2 : SentimentStats :=
    { conversion_rate :=
        if 0 < revenue then (ss.conversion_rate * ((count2 : ℚ) - 1) + 1) / (count2 : ℚ)
        else ss.conversion_rate
      avg_revenue := (ss.avg_revenue * ((count2 : ℚ) - 1) + revenue) / (count2 : ℚ)
      count := count2 }
  { m with
    weather_impact := fun c => if c = weather_condition then some ws2 else m.weather_impact c
    market_correlation := market_correlation
    sentiment_impact := fun c => if c = news_sentiment then some ss2 else m.sentiment_impact c }

/-- One iteration of the `enrichment_worker` loop started by
`start_enrichment_worker` (`streaming_processor.py` lines 48-66).
`enrich_result` is the outcome of `api_manager.enrich_interaction` on the
popped event: on success the enriched event is appended to the ring
buffer and folded into the external metrics; on an exception the error is
caught, logged, and the original raw event is appended instead.  Either
way the worker survives to the next iteration with the rest of the
queue. -/
def enrichment_worker_step (s : ProcessorState)
    (enrich_result : Interaction → Except PyErr EnrichedInteraction) : ProcessorState :=
  match s.enrichment_queue with
  | [] => s
  | interaction :: rest =>
    match enrich_result interaction with
    | .ok enriched =>
      { s with
        enrichment_queue := rest
        enriched_interactions := deque_push 5000 s.enriched_interactions (.inr enriched)
        current_metrics := update_external_metrics s.current_metrics enriched }
    | .error _ =>
      { s with
        enrichment_queue := rest
        enriched_interactions := deque_push 5000 s.enriched_interactions (.inl interaction) }

/-- Running the worker loop over the whole queue, with a fixed enrichment
outcome function. -/
def enrichment_worker_run (s : ProcessorState)
    (enrich_result : Interaction → Except PyErr EnrichedInteraction) : ℕ → ProcessorState
  | 0 => s
  | k + 1 => enrichment_worker_run (enrichment_worker_step s enrich_result) enrich_result k

end StreamingProcessor

namespace StreamingSimulator

/-- The mutable fields of `RealTimeCustomerSimulator`
(`streaming_simulator.py` lines 13-23) relevant to its lifecycle.
`producer_threads` counts the background `generate_interactions` loops
started with `threading.Thread(...).start()`. -/
structure SimulatorState where
  is_running : Bool
  producer_threads : ℕ
  interaction_queue : List Interaction
deriving DecidableEq

/-- `start_streaming` (`streaming_simulator.py` lines 64-80): set
`is_running` and unconditionally start a new producer thread. -/
def start_streaming (s : SimulatorState) : SimulatorState :=
  { s with is_running := true, producer_threads := s.producer_threads + 1 }

/-- `stop_streaming` (`streaming_simulator.py` lines 82-85). -/
def stop_streaming (s : SimulatorState) : SimulatorState :=
  { s with is_running := false }

end StreamingSimulator

namespace BigQueryStreaming

/-- The row dict built by `stream_interaction`
(`bigquery_streaming.py` lines 63-72). -/
structure BqInteraction where
  interaction_id : String
  customer_id : String
  touchpoint : String
  timestamp : String
  revenue : ℚ
  action_taken : String
  customer_segment : String
  processed_timestamp : ℚ
deriving DecidableEq

/-- The mutable fields of `BigQueryStreaming`
(`bigquery_streaming.py` lines 12-25) plus the model of its environment:
`worker_threads` counts the background `stream_worker` loops started with
`threading.Thread(...).start()`, `sink_batches` records the batches
handed to `insert_rows_json`, and `time` is the worker's wall clock. -/
structure BigQueryStreamingState where
  is_streaming : Bool
  worker_threads : ℕ
  streaming_queue : List BqInteraction
  sink_batches : List (List BqInteraction)
  time : ℚ
deriving DecidableEq

/-- `stream_interaction` (`bigquery_streaming.py` lines 60-74): convert
the interaction to a row and put it on the streaming queue. -/
def stream_interaction (s : BigQueryStreamingState) (interaction : Interaction)
    (now : ℚ) : BigQueryStreamingState :=
  let bq_interaction : BqInteraction :=
    { interaction_id := interaction.interaction_id
      customer_id := interaction.customer_id
      touchpoint := interaction.touchpoint
      timestamp := interaction.timestamp
      revenue := interaction.revenue
      action_taken := interaction.action_taken
      customer_segment := interaction.customer_segment.getD ""
      processed_timestamp := now }
  { s with streaming_queue := s.streaming_queue ++ [bq_interaction] }

/-- `start_streaming_to_bigquery` (`bigquery_streaming.py` lines 76-112):
set `is_streaming` and unconditionally start a new `stream_worker`
thread.  `batch_size` and `interval_seconds` configure that worker's
loop (see `stream_worker_cycle`); they are not recorded in object
state. -/
def start_streaming_to_bigquery (s : BigQueryStreamingState)
    (batch_size : ℕ) (interval_seconds : ℚ) : BigQueryStreamingState :=
  let _ := batch_size
  let _ := interval_seconds
  { s with is_streaming := true, worker_threads := s.worker_threads + 1 }

/-- `stop_streaming` (`bigquery_streaming.py` lines 114-117). -/
def stop_streaming (s : BigQueryStreamingState) : BigQueryStreamingState :=
  { s with is_streaming := false }

/-- One cycle of the `stream_worker` loop (`bigquery_streaming.py`
lines 83-107), run only while `is_streaming`: drain up to `batch_size`
events from the queue (the `for _ in range(batch_size)` loop stops early
when the queue empties), hand the batch to `insert_rows_json` when
non-empty (`flush_ok` is that call's success; on failure the batch is
logged and discarded), then sleep `interval_seconds` unconditionally.
`arrivals` are the events `stream_interaction` enqueues during the
sleep. -/
def stream_worker_cycle (batch_size : ℕ) (interval_seconds : ℚ)
    (s : BigQueryStreamingState) (arrivals : List BqInteraction) (flush_ok : Bool) :
    BigQueryStreamingState :=
  if s.is_streaming then
    let batch := s.streaming_queue.take batch_size
    let sink_batches :=
      if batch.isEmpty then s.sink_batches
      else if flush_ok then s.sink_batches ++ [batch]
      else s.sink_batches
    { s with
      streaming_queue := s.streaming_queue.drop batch_size ++ arrivals
      sink_batches := sink_batches
      time := s.time + interval_seconds }
  else s

end BigQueryStreaming

/-! ## Sample data for concrete runs -/

/-- A fixed sample row for exercising the BigQuery stream worker. -/
def bq_event (id : String) : BigQueryStreaming.BqInteraction where
  interaction_id := id
  customer_id := "CUST_000001"
  touchpoint := "website"
  timestamp := "2026-10-12T00:00:00"
  revenue := 0
  action_taken := "view"
  customer_segment := "Standard"
  processed_timestamp := 0

/-- A sample raw interaction with the given id, touchpoint, revenue and
processing timestamp, shaped like the simulator's output. -/
def sample_event (id touchpoint : String) (revenue : ℚ) (ts : Option ℚ) : Interaction where
  interaction_id := id
  customer_id := "CUST_000001"
  touchpoint := touchpoint
  timestamp := "2026-10-12T00:00:00"
  session_duration_minutes := 10
  pages_viewed := none
  action_taken := "view"
  product_category := "Books"
  revenue := revenue
  device_type := none
  campaign_id := none
  customer_segment := some "Standard"
  customer_age := 30
  city := none
  processed_timestamp := ts

/-- A sample enriched interaction over `sample_event`, with the given
weather condition, sentiments and revenue. -/
def sample_enriched (condition market news : String) (revenue : ℚ) :
    ApiManager.EnrichedInteraction where
  base := sample_event "e1" "website" revenue none
  weather_temperature := 20
  weather_condition := condition
  weather_humidity := 60
  market_sentiment := market
  market_change_percent := 1
  news_sentiment := news
  news_sentiment_score := 1/2
  inflation_rate := 3
  consumer_confidence := 100
  city_population := 8400000
  city_median_income := 65000

/-! ## Theorems -/

open ApiManager StreamingProcessor

theorem respect_rate_limit_records (last : LastCalls) (api_name : String) (now : ℚ) :
    (respect_rate_limit last api_name now).2 api_name
      = some (respect_rate_limit last api_name now).1 := by
  unfold respect_rate_limit
  cases last api_name <;> simp

theorem respect_rate_limit_other_source (last : LastCalls) (api_name other : String)
    (now : ℚ) (h : other ≠ api_name) :
    (respect_rate_limit last api_name now).2 other = last other := by
  unfold respect_rate_limit
  cases last api_name <;> simp [h]

theorem respect_rate_limit_gap (last : LastCalls) (api_name : String) (now t : ℚ)
    (h : last api_name = some t) :
    rate_limits_get api_name ≤ (respect_rate_limit last api_name now).1 - t := by
  unfold respect_rate_limit
  rw [h]
  simp only
  split
  · linarith
  · linarith [not_lt.mp (by assumption : ¬ now - t < rate_limits_get api_name)]

/-- C7: for a fixed source, the time between two consecutive returns of
`respect_rate_limit` for that source is at least the source's minimum
interval; each call records its return time for that source; and the
recorded times of other sources are untouched. -/
theorem C7_rate_limiter_min_interval (last : LastCalls) (api_name : String)
    (now1 now2 : ℚ) :
    rate_limits_get api_name ≤
        (respect_rate_limit (respect_rate_limit last api_name now1).2 api_name now2).1
          - (respect_rate_limit last api_name now1).1
    ∧ (respect_rate_limit last api_name now1).2 api_name
        = some (respect_rate_limit last api_name now1).1
    ∧ ∀ other, other ≠ api_name →
        (respect_rate_limit last api_name now1).2 other = last other :=
  ⟨respect_rate_limit_gap _ _ _ _ (respect_rate_limit_records last api_name now1),
   respect_rate_limit_records last api_name now1,
   fun other h => respect_rate_limit_other_source last api_name other now1 h⟩

/-- Witness for C7 at a concrete input: two immediate calls for
`"weather"` are spaced by at least 1 second, and the `"news"` entry is
untouched. -/
theorem C7_rate_limiter_min_interval_witness :
    rate_limits_get "weather" ≤
        (respect_rate_limit (respect_rate_limit (fun _ => none) "weather" 0).2 "weather" 0).1
          - (respect_rate_limit (fun _ => none) "weather" 0).1
    ∧ (respect_rate_limit (fun _ => none) "weather" 0).2 "news" = none :=
  ⟨(C7_rate_limiter_min_interval (fun _ => none) "weather" 0 0).1,
   (C7_rate_limiter_min_interval (fun _ => none) "weather" 0 0).2.2 "news" (by decide)⟩

/-- C3: `get_cached_or_fetch` returns a live cached entry (age strictly
below the TTL) without invoking the fetch function; on a miss or an
expired entry it invokes the fetch function and stores a non-empty
result under the current timestamp; and whenever the fetch function was
not invoked, the returned value came from an entry younger than the
TTL — an expired entry is never returned. -/
theorem C3_cache_ttl {α : Type} (truthy : α → Bool) (cache : Cache α)
    (ttl now : ℚ) (key : String) (fr : Except PyErr α) :
    (∀ entry, cache key = some entry → now - entry.timestamp < ttl →
        get_cached_or_fetch truthy ttl cache now key fr = (.ok entry.data, cache, false))
    ∧ ((cache key = none ∨ ∀ entry, cache key = some entry → ttl ≤ now - entry.timestamp) →
        (get_cached_or_fetch truthy ttl cache now key fr).2.2 = true)
    ∧ ((cache key = none ∨ ∀ entry, cache key = some entry → ttl ≤ now - entry.timestamp) →
        ∀ v, fr = .ok v → truthy v = true →
          get_cached_or_fetch truthy ttl cache now key fr
            = (.ok v, fun k => if k = key then some ⟨v, now⟩ else cache k, true))
    ∧ (∀ v c, get_cached_or_fetch truthy ttl cache now key fr = (v, c, false) →
        ∃ entry, cache key = some entry ∧ now - entry.timestamp < ttl ∧ v = .ok entry.data) := by
  have hmiss : (cache key = none ∨ ∀ entry, cache key = some entry → ttl ≤ now - entry.timestamp) →
      is_cache_valid ttl cache now key = false := by
    intro h
    unfold is_cache_valid
    cases hc : cache key with
    | none => rfl
    | some entry =>
      rcases h with h | h
      · rw [hc] at h; exact absurd h (by simp)
      · simp [not_lt.mpr (h entry hc)]
  refine ⟨?_, ?_, ?_, ?_⟩
  · intro entry he hf
    have hv : is_cache_valid ttl cache now key = true := by
      unfold is_cache_valid; rw [he]; simpa using hf
    unfold get_cached_or_fetch
    rw [hv, if_pos rfl, he]
  · intro h
    unfold get_cached_or_fetch
    rw [hmiss h]
    simp only [Bool.false_eq_true, if_false]
    unfold fetch_and_store
    cases fr with
    | error e => rfl
    | ok v => by_cases ht : truthy v <;> simp [ht]
  · intro h v hfr ht
    subst hfr
    unfold get_cached_or_fetch
    rw [hmiss h]
    simp only [Bool.false_eq_true, if_false]
    unfold fetch_and_store
    simp [ht]
  · intro v c hvc
    unfold get_cached_or_fetch at hvc
    by_cases hv : is_cache_valid ttl cache now key
    · rw [hv, if_pos rfl] at hvc
      cases hc : cache key with
      | none => unfold is_cache_valid at hv; rw [hc] at hv; exact absurd hv (by simp)
      | some entry =>
        rw [hc] at hvc
        refine ⟨entry, rfl, ?_, ?_⟩
        · unfold is_cache_valid at hv; rw [hc] at hv; simpa using hv
        · simpa using (congrArg Prod.fst hvc).symm
    · rw [Bool.not_eq_true] at hv
      rw [hv, if_neg (by simp)] at hvc
      unfold fetch_and_store at hvc
      exfalso
      cases fr with
      | error e => exact Bool.true_eq_false.mp (congrArg (fun p => p.2.2) hvc) |>.elim
      | ok w =>
        by_cases ht : truthy w <;> simp [ht] at hvc

/-- Witness for C3 at a concrete input: a live entry of age 90 < 300 is
returned without invoking the fetch function. -/
theorem C3_cache_ttl_witness :
    get_cached_or_fetch (fun _ => true) 300 (fun k => if k = "weather_x" then some ⟨7, 10⟩ else none)
        100 "weather_x" (.ok (5 : ℕ))
      = (.ok 7, fun k => if k = "weather_x" then some ⟨7, 10⟩ else none, false) :=
  (C3_cache_ttl (fun _ => true) (fun k => if k = "weather_x" then some ⟨7, 10⟩ else none)
      300 100 "weather_x" (.ok 5)).1 ⟨7, 10⟩ (by simp) (by norm_num)

/-- C10: with the corresponding API key unset, `get_weather_data`,
`get_stock_market_data` and `get_news_sentiment` return freshly
synthesized mock data built from the call's own random draws, with cache
and rate-limiter state returned untouched — the equations hold for every
cache, so the cache is neither read nor written — and two calls with
different draws can return different values. -/
theorem C10_missing_key_bypasses_cache (wc : Cache WeatherData) (sc : Cache StockData)
    (nc : Cache NewsData) (rl : LastCalls) (city symbol query : String) (now : ℚ)
    (wh : Except PyErr WeatherApiResponse) (sh : Except PyErr StockApiResponse)
    (nh : Except PyErr NewsApiResponse)
    (wd : WeatherDraws) (sd : StockDraws) (nd : NewsDraws) :
    get_weather_data none wc rl city now wh wd
      = (.ok (get_mock_weather_data wd now), wc, rl)
    ∧ get_stock_market_data none sc rl symbol now sh sd
      = (.ok (get_mock_stock_data sd now), sc, rl)
    ∧ get_news_sentiment none nc rl query now nh nd
      = (.ok (get_mock_news_sentiment nd now), nc, rl)
    ∧ ∃ d1 d2 : WeatherDraws, get_mock_weather_data d1 now ≠ get_mock_weather_data d2 now :=
  ⟨rfl, rfl, rfl,
   ⟨⟨0, 0, 0, 0, 0, 0⟩, ⟨1, 0, 0, 0, 0, 0⟩, by
     intro h
     exact absurd (congrArg WeatherData.temperature h) (by simp [get_mock_weather_data])⟩⟩

/-- C5 counterexample: a simulator that is already Running (`is_running`,
one producer thread) is changed by `start_streaming`, which starts a
second producer thread — so `start()` on a Running component is not a
no-op. -/
theorem C5_counterexample :
    (StreamingSimulator.SimulatorState.mk true 1 []).is_running = true
    ∧ StreamingSimulator.start_streaming ⟨true, 1, []⟩ ≠ ⟨true, 1, []⟩ :=
  ⟨rfl, by decide⟩

/-- C5 amended: calling `start_streaming` / `start_streaming_to_bigquery`
while already Running leaves the running flag and the queues unchanged
but starts one additional producer/worker loop — it is not a no-op. -/
theorem C5_amended_start_spawns_thread (sim : StreamingSimulator.SimulatorState)
    (bq : BigQueryStreaming.BigQueryStreamingState) (batch_size : ℕ)
    (interval_seconds : ℚ) (hs : sim.is_running = true) (hb : bq.is_streaming = true) :
    (StreamingSimulator.start_streaming sim).is_running = sim.is_running
    ∧ (StreamingSimulator.start_streaming sim).producer_threads = sim.producer_threads + 1
    ∧ (StreamingSimulator.start_streaming sim).interaction_queue = sim.interaction_queue
    ∧ (BigQueryStreaming.start_streaming_to_bigquery bq batch_size interval_seconds).is_streaming
        = bq.is_streaming
    ∧ (BigQueryStreaming.start_streaming_to_bigquery bq batch_size interval_seconds).worker_threads
        = bq.worker_threads + 1
    ∧ (BigQueryStreaming.start_streaming_to_bigquery bq batch_size interval_seconds).streaming_queue
        = bq.streaming_queue := by
  refine ⟨?_, rfl, rfl, ?_, rfl, rfl⟩
  · rw [hs]; rfl
  · rw [hb]; rfl

/-- Witness for the amended C5 at a concrete Running state. -/
theorem C5_amended_start_spawns_thread_witness :
    (StreamingSimulator.start_streaming ⟨true, 1, []⟩).producer_threads = 1 + 1
    ∧ (BigQueryStreaming.start_streaming_to_bigquery ⟨true, 1, [], [], 0⟩ 100 30).worker_threads
        = 1 + 1 :=
  ⟨(C5_amended_start_spawns_thread ⟨true, 1, []⟩ ⟨true, 1, [], [], 0⟩ 100 30 rfl rfl).2.1,
   (C5_amended_start_spawns_thread ⟨true, 1, []⟩ ⟨true, 1, [], [], 0⟩ 100 30 rfl rfl).2.2.2.2.1⟩

/-- C1 counterexample: with `batch_size = 2` and three buffered events, a
worker cycle flushes only the two oldest events to the Sink and leaves
one event buffered — after the flush the buffer size is 1, not 0, and
not every buffered event was handed to the Sink in that flush. -/
theorem C1_counterexample :
    (BigQueryStreaming.stream_worker_cycle 2 30
        ⟨true, 1, [bq_event "a", bq_event "b", bq_event "c"], [], 0⟩ [] true).sink_batches
      = [[bq_event "a", bq_event "b"]]
    ∧ (BigQueryStreaming.stream_worker_cycle 2 30
        ⟨true, 1, [bq_event "a", bq_event "b", bq_event "c"], [], 0⟩ [] true).streaming_queue
      = [bq_event "c"] := by
  constructor <;> rfl

/-- C1 amended: the stream worker is purely interval-driven — each cycle
takes exactly `interval_seconds` regardless of how many events are
buffered (reaching `batch_size` does not trigger an early flush), hands
the up-to-`batch_size` oldest buffered events to the Sink when there are
any and the insert succeeds, and leaves the remainder (plus any events
arriving during the sleep) buffered; the buffer is empty after a cycle
exactly when at most `batch_size` events were buffered and none
arrived. -/
theorem C1_amended_interval_driven_flush (batch_size : ℕ) (interval_seconds : ℚ)
    (s : BigQueryStreaming.BigQueryStreamingState) (arrivals : List BigQueryStreaming.BqInteraction)
    (flush_ok : Bool) (hs : s.is_streaming = true) :
    (BigQueryStreaming.stream_worker_cycle batch_size interval_seconds s arrivals flush_ok).time
      = s.time + interval_seconds
    ∧ (BigQueryStreaming.stream_worker_cycle batch_size interval_seconds s arrivals flush_ok).streaming_queue
      = s.streaming_queue.drop batch_size ++ arrivals
    ∧ (s.streaming_queue.take batch_size ≠ [] → flush_ok = true →
        (BigQueryStreaming.stream_worker_cycle batch_size interval_seconds s arrivals flush_ok).sink_batches
          = s.sink_batches ++ [s.streaming_queue.take batch_size])
    ∧ (s.streaming_queue.length ≤ batch_size → arrivals = [] →
        (BigQueryStreaming.stream_worker_cycle batch_size interval_seconds s arrivals flush_ok).streaming_queue
          = []) := by
  unfold BigQueryStreaming.stream_worker_cycle
  rw [hs]
  refine ⟨rfl, rfl, ?_, ?_⟩
  · intro hb hok
    simp [List.isEmpty_iff, hb, hok]
  · intro hlen harr
    simp [harr, List.drop_eq_nil_of_le hlen]

/-- Witness for the amended C1 at a concrete input: one buffered event,
`batch_size = 2` — the cycle takes 30 seconds and empties the buffer. -/
theorem C1_amended_interval_driven_flush_witness :
    (BigQueryStreaming.stream_worker_cycle 2 30
        ⟨true, 1, [bq_event "a"], [], 0⟩ [] true).time = 0 + 30
    ∧ (BigQueryStreaming.stream_worker_cycle 2 30
        ⟨true, 1, [bq_event "a"], [], 0⟩ [] true).streaming_queue = [] :=
  ⟨(C1_amended_interval_driven_flush 2 30 ⟨true, 1, [bq_event "a"], [], 0⟩ [] true rfl).1,
   (C1_amended_interval_driven_flush 2 30 ⟨true, 1, [bq_event "a"], [], 0⟩ [] true rfl).2.2.2
     (by norm_num) rfl⟩

theorem calculate_window_metrics_rate (s : ProcessorState) (now : ℚ)
    (hne : s.interactions_buffer ≠ [])
    (hall : ∀ i ∈ s.interactions_buffer,
      now - s.window_size * 60 < i.processed_timestamp.getD now) :
    (calculate_window_metrics s now).current_metrics.conversion_rate_window
      = 100 * (s.interactions_buffer.countP (fun i => decide (0 < i.revenue)) : ℚ)
          / (s.interactions_buffer.length : ℚ) := by
  have hfilter : s.interactions_buffer.filter
      (fun i => decide (now - s.window_size * 60 < i.processed_timestamp.getD now))
        = s.interactions_buffer :=
    List.filter_eq_self.mpr (fun a ha => by simpa using hall a ha)
  unfold calculate_window_metrics
  rw [if_neg (by simpa [List.isEmpty_iff] using hne)]
  simp only [hfilter]
  rw [if_neg (by simpa [List.isEmpty_iff] using hne)]
  have hlen : 0 < s.interactions_buffer.length := List.length_pos.mpr hne
  simp only [if_pos hlen]
  ring

/-- C2: when all buffered events lie within the window, a window
recompute sets the window conversion rate to `100 * K / N`, where `N` is
the number of buffered events and `K` the number with positive revenue;
the value is unchanged under any permutation of those events. -/
theorem C2_window_conversion_rate (s : ProcessorState) (now : ℚ)
    (buf2 : List Interaction)
    (hall : ∀ i ∈ s.interactions_buffer,
      now - s.window_size * 60 < i.processed_timestamp.getD now)
    (hne : s.interactions_buffer ≠ [])
    (hperm : s.interactions_buffer.Perm buf2) :
    (calculate_window_metrics s now).current_metrics.conversion_rate_window
      = 100 * (s.interactions_buffer.countP (fun i => decide (0 < i.revenue)) : ℚ)
          / (s.interactions_buffer.length : ℚ)
    ∧ (calculate_window_metrics { s with interactions_buffer := buf2 } now).current_metrics.conversion_rate_window
      = (calculate_window_metrics s now).current_metrics.conversion_rate_window := by
  have h1 := calculate_window_metrics_rate s now hne hall
  have hne2 : buf2 ≠ [] := fun h => hne (List.Perm.eq_nil (h ▸ hperm))
  refine ⟨h1, ?_⟩
  have h2 := calculate_window_metrics_rate { s with interactions_buffer := buf2 } now
    (by simpa using hne2)
    (by intro i hi; exact hall i (hperm.mem_iff.mpr hi))
  rw [h1, h2]
  simp only
  rw [hperm.countP_eq, hperm.length_eq]

/-- Witness for C2 at a concrete input: two in-window events, one with
positive revenue, in both orders. -/
theorem C2_window_conversion_rate_witness :
    (calculate_window_metrics { initial_processor_state 5 300 with
        interactions_buffer := [sample_event "1" "website" 150 (some 280),
          sample_event "2" "website" 0 (some 290)] } 300).current_metrics.conversion_rate_window
      = 100 * (([sample_event "1" "website" 150 (some 280),
            sample_event "2" "website" 0 (some 290)].countP
              (fun i => decide (0 < i.revenue)) : ℕ) : ℚ)
          / (([sample_event "1" "website" 150 (some 280),
            sample_event "2" "website" 0 (some 290)].length : ℕ) : ℚ) :=
  (C2_window_conversion_rate
    { initial_processor_state 5 300 with
      interactions_buffer := [sample_event "1" "website" 150 (some 280),
        sample_event "2" "website" 0 (some 290)] } 300
    [sample_event "2" "website" 0 (some 290), sample_event "1" "website" 150 (some 280)]
    (by norm_num [initial_processor_state, sample_event, List.forall_mem_cons])
    (by simp) (List.Perm.swap _ _ _)).1

theorem calculate_window_metrics_counters (s : ProcessorState) (now : ℚ) :
    (calculate_window_metrics s now).current_metrics.total_interactions_today
      = s.current_metrics.total_interactions_today
    ∧ (calculate_window_metrics s now).current_metrics.total_revenue_today
      = s.current_metrics.total_revenue_today
    ∧ ∀ t, (calculate_window_metrics s now).current_metrics.touchpoint_counts t
      = s.current_metrics.touchpoint_counts t := by
  unfold calculate_window_metrics
  split
  · exact ⟨rfl, rfl, fun _ => rfl⟩
  · dsimp only
    split
    · exact ⟨rfl, rfl, fun _ => rfl⟩
    · exact ⟨rfl, rfl, fun _ => rfl⟩

theorem update_real_time_metrics_counters (s : ProcessorState) (i : Interaction) (now : ℚ) :
    (update_real_time_metrics s i now).current_metrics.total_interactions_today
      = s.current_metrics.total_interactions_today + 1
    ∧ (update_real_time_metrics s i now).current_metrics.total_revenue_today
      = s.current_metrics.total_revenue_today + i.revenue
    ∧ ∀ t, (update_real_time_metrics s i now).current_metrics.touchpoint_counts t
      = s.current_metrics.touchpoint_counts t + (if t = i.touchpoint then 1 else 0) := by
  unfold update_real_time_metrics
  dsimp only
  split
  · refine ⟨?_, ?_, ?_⟩
    · rw [show ∀ x : ProcessorState, ({ x with last_update := now } : ProcessorState).current_metrics
          = x.current_metrics from fun _ => rfl]
      rw [(calculate_window_metrics_counters _ now).1]
    · rw [show ∀ x : ProcessorState, ({ x with last_update := now } : ProcessorState).current_metrics
          = x.current_metrics from fun _ => rfl]
      rw [(calculate_window_metrics_counters _ now).2.1]
    · intro t
      rw [show ∀ x : ProcessorState, ({ x with last_update := now } : ProcessorState).current_metrics
          = x.current_metrics from fun _ => rfl]
      rw [(calculate_window_metrics_counters _ now).2.2 t]
      by_cases ht : t = i.touchpoint <;> simp [ht]
  · refine ⟨rfl, rfl, fun t => ?_⟩
    by_cases ht : t = i.touchpoint <;> simp [ht]

theorem add_interaction_counters (s : ProcessorState) (interaction : Interaction) (now : ℚ) :
    (add_interaction s interaction now).current_metrics.total_interactions_today
      = s.current_metrics.total_interactions_today + 1
    ∧ (add_interaction s interaction now).current_metrics.total_revenue_today
      = s.current_metrics.total_revenue_today + interaction.revenue
    ∧ ∀ t, (add_interaction s interaction now).current_metrics.touchpoint_counts t
      = s.current_metrics.touchpoint_counts t + (if t = interaction.touchpoint then 1 else 0) := by
  unfold add_interaction
  dsimp only
  exact update_real_time_metrics_counters _ _ now

theorem add_interactions_batch_counters (timed : List (ℚ × Interaction))
    (s : ProcessorState) :
    (add_interactions_batch s timed).current_metrics.total_interactions_today
      = s.current_metrics.total_interactions_today + timed.length
    ∧ (add_interactions_batch s timed).current_metrics.total_revenue_today
      = s.current_metrics.total_revenue_today + (timed.map (fun p => p.2.revenue)).sum
    ∧ ∀ t, (add_interactions_batch s timed).current_metrics.touchpoint_counts t
      = s.current_metrics.touchpoint_counts t
          + timed.countP (fun p => decide (p.2.touchpoint = t)) := by
  induction timed generalizing s with
  | nil => simp [add_interactions_batch]
  | cons hd tl ih =>
    obtain ⟨h1, h2, h3⟩ := ih (add_interaction s hd.2 hd.1)
    obtain ⟨a1, a2, a3⟩ := add_interaction_counters s hd.2 hd.1
    have hb : add_interactions_batch s (hd :: tl)
        = add_interactions_batch (add_interaction s hd.2 hd.1) tl := rfl
    refine ⟨?_, ?_, ?_⟩
    · rw [hb, h1, a1, List.length_cons]; omega
    · rw [hb, h2, a2, List.map_cons, List.sum_cons]; ring
    · intro t
      rw [hb, h3 t, a3 t, List.countP_cons]
      have hsame : (if t = hd.2.touchpoint then 1 else 0)
          = (if decide (hd.2.touchpoint = t) = true then 1 else 0) := by
        by_cases ht : t = hd.2.touchpoint
        · simp [ht]
        · simp [ht, Ne.symm ht]
      rw [hsame]
      omega

/-- C4: starting from a fresh processor, after any sequence of observed
events the daily interaction count equals the number of events, the
daily revenue equals the sum of their revenues, and each touchpoint's
count equals the number of events on that touchpoint; in particular the
3-event scenario with revenues [0, 150, 0] on [website, email, website]
yields totals 3 and 150 with website at 2 and email at 1. -/
theorem C4_running_totals (timed : List (ℚ × Interaction)) (w now0 : ℚ) (t : String) :
    (add_interactions_batch (initial_processor_state w now0) timed).current_metrics.total_interactions_today
      = timed.length
    ∧ (add_interactions_batch (initial_processor_state w now0) timed).current_metrics.total_revenue_today
      = (timed.map (fun p => p.2.revenue)).sum
    ∧ (add_interactions_batch (initial_processor_state w now0) timed).current_metrics.touchpoint_counts t
      = timed.countP (fun p => decide (p.2.touchpoint = t))
    ∧ (add_interactions_batch (initial_processor_state 5 0)
        [(1, sample_event "1" "website" 0 none), (2, sample_event "2" "email" 150 none),
         (3, sample_event "3" "website" 0 none)]).current_metrics.total_interactions_today = 3
    ∧ (add_interactions_batch (initial_processor_state 5 0)
        [(1, sample_event "1" "website" 0 none), (2, sample_event "2" "email" 150 none),
         (3, sample_event "3" "website" 0 none)]).current_metrics.total_revenue_today = 150
    ∧ (add_interactions_batch (initial_processor_state 5 0)
        [(1, sample_event "1" "website" 0 none), (2, sample_event "2" "email" 150 none),
         (3, sample_event "3" "website" 0 none)]).current_metrics.touchpoint_counts "website" = 2
    ∧ (add_interactions_batch (initial_processor_state 5 0)
        [(1, sample_event "1" "website" 0 none), (2, sample_event "2" "email" 150 none),
         (3, sample_event "3" "website" 0 none)]).current_metrics.touchpoint_counts "email" = 1 := by
  obtain ⟨h1, h2, h3⟩ := add_interactions_batch_counters timed (initial_processor_state w now0)
  obtain ⟨g1, g2, g3⟩ := add_interactions_batch_counters
    [(1, sample_event "1" "website" 0 none), (2, sample_event "2" "email" 150 none),
     (3, sample_event "3" "website" 0 none)] (initial_processor_state 5 0)
  refine ⟨?_, ?_, ?_, ?_, ?_, ?_, ?_⟩
  · simpa [initial_processor_state, initial_current_metrics] using h1
  · simpa [initial_processor_state, initial_current_metrics] using h2
  · simpa [initial_processor_state, initial_current_metrics] using h3 t
  · simpa [initial_processor_state, initial_current_metrics] using g1
  · rw [g2]; norm_num [initial_processor_state, initial_current_metrics, sample_event]
  · rw [g3 "website"]; decide
  · rw [g3 "email"]; decide

theorem deque_push_getLast (xs : List α) (x : α) (n : ℕ) (hn : 0 < n) :
    (deque_push n xs x).getLast? = some x := by
  unfold deque_push
  dsimp only
  split
  · rename_i h
    have hk : (xs ++ [x]).length - n ≤ xs.length := by
      simp only [List.length_append, List.length_singleton]
      omega
    rw [List.drop_append_of_le_length hk, List.getLast?_concat]
  · rw [List.getLast?_concat]

/-- C8: when enrichment of the popped event raises, the worker iteration
catches it: the queue advances past the event (the worker proceeds), the
original raw event is appended unenriched as the newest entry of the
enriched-events buffer, and the metrics and interaction buffer are left
unchanged. -/
theorem C8_worker_survives_enrichment_failure (s : ProcessorState)
    (enrich_result : Interaction → Except PyErr EnrichedInteraction)
    (interaction : Interaction) (rest : List Interaction) (err : PyErr)
    (hq : s.enrichment_queue = interaction :: rest)
    (he : enrich_result interaction = .error err) :
    (enrichment_worker_step s enrich_result).enrichment_queue = rest
    ∧ (enrichment_worker_step s enrich_result).enriched_interactions
        = deque_push 5000 s.enriched_interactions (Sum.inl interaction)
    ∧ ((enrichment_worker_step s enrich_result).enriched_interactions).getLast?
        = some (Sum.inl interaction)
    ∧ (enrichment_worker_step s enrich_result).current_metrics = s.current_metrics
    ∧ (enrichment_worker_step s enrich_result).interactions_buffer
        = s.interactions_buffer := by
  have hstep : enrichment_worker_step s enrich_result
      = { s with
          enrichment_queue := rest
          enriched_interactions := deque_push 5000 s.enriched_interactions
            (Sum.inl interaction) } := by
    simp only [enrichment_worker_step, hq, he]
  rw [hstep]
  exact ⟨rfl, rfl, deque_push_getLast _ _ _ (by norm_num), rfl, rfl⟩

/-- Witness for C8 at a concrete input: one queued event whose enrichment
times out is passed through raw and the queue empties. -/
theorem C8_worker_survives_enrichment_failure_witness :
    (enrichment_worker_step
        { initial_processor_state 5 0 with
          enrichment_queue := [sample_event "1" "website" 0 none] }
        (fun _ => .error .timeout)).enrichment_queue = []
    ∧ ((enrichment_worker_step
        { initial_processor_state 5 0 with
          enrichment_queue := [sample_event "1" "website" 0 none] }
        (fun _ => .error .timeout)).enriched_interactions).getLast?
        = some (Sum.inl (sample_event "1" "website" 0 none)) :=
  ⟨(C8_worker_survives_enrichment_failure _ _ (sample_event "1" "website" 0 none) [] .timeout
      rfl rfl).1,
   (C8_worker_survives_enrichment_failure _ _ (sample_event "1" "website" 0 none) [] .timeout
      rfl rfl).2.2.1⟩

/-- C9: one `update_external_metrics` step never decreases any
per-category interaction count, event count, revenue total or the
market-correlation score, never removes a category entry, and preserves
the invariant that each weather category's average revenue equals its
revenue total divided by its interaction count. -/
theorem C9_external_stats_monotone (m : CurrentMetrics) (e : EnrichedInteraction)
    (hrev : 0 ≤ e.base.revenue) :
    (∀ c s, m.weather_impact c = some s →
        ∃ s2, (update_external_metrics m e).weather_impact c = some s2
          ∧ s.interaction_count ≤ s2.interaction_count
          ∧ s.total_revenue ≤ s2.total_revenue)
    ∧ (∀ c, m.weather_impact c ≠ none → (update_external_metrics m e).weather_impact c ≠ none)
    ∧ (∀ c s, m.sentiment_impact c = some s →
        ∃ s2, (update_external_metrics m e).sentiment_impact c = some s2
          ∧ s.count ≤ s2.count)
    ∧ (∀ c, m.sentiment_impact c ≠ none →
        (update_external_metrics m e).sentiment_impact c ≠ none)
    ∧ m.market_correlation ≤ (update_external_metrics m e).market_correlation
    ∧ ((∀ c s, m.weather_impact c = some s →
          s.avg_revenue = s.total_revenue / (s.interaction_count : ℚ)) →
        ∀ c s, (update_external_metrics m e).weather_impact c = some s →
          s.avg_revenue = s.total_revenue / (s.interaction_count : ℚ)) := by
  unfold update_external_metrics
  dsimp only
  refine ⟨?_, ?_, ?_, ?_, ?_, ?_⟩
  · intro c s hc
    by_cases h : c = e.weather_condition
    · subst h
      simp only [hc, Option.getD_some, eq_self_iff_true, ite_true]
      exact ⟨_, rfl, Nat.le_succ _, by linarith⟩
    · exact ⟨s, by rw [if_neg h, hc], le_refl _, le_refl _⟩
  · intro c hcne
    by_cases h : c = e.weather_condition
    · subst h; simp
    · rw [if_neg h]; exact hcne
  · intro c s hc
    by_cases h : c = e.news_sentiment
    · subst h
      simp only [hc, Option.getD_some, eq_self_iff_true, ite_true]
      exact ⟨_, rfl, Nat.le_succ _⟩
    · exact ⟨s, by rw [if_neg h, hc], le_refl _⟩
  · intro c hcne
    by_cases h : c = e.news_sentiment
    · subst h; simp
    · rw [if_neg h]; exact hcne
  · split
    · linarith
    · split
      · linarith
      · exact le_refl _
  · intro hinv c s hc2
    by_cases h : c = e.weather_condition
    · subst h
      rw [if_pos rfl, Option.some.injEq] at hc2
      subst hc2
      dsimp only
      push_cast
      ring
    · rw [if_neg h] at hc2
      exact hinv c s hc2

/-- Witness for C9 at a concrete input: an accumulator with two Clear
interactions totalling 100 stays at least that large after one more
Clear event with revenue 10. -/
theorem C9_external_stats_monotone_witness :
    ∃ s2, (update_external_metrics
        { initial_current_metrics with
          weather_impact := fun c => if c = "Clear" then some ⟨100, 2, 50⟩ else none }
        (sample_enriched "Clear" "positive" "neutral" 10)).weather_impact "Clear" = some s2
      ∧ 2 ≤ s2.interaction_count
      ∧ (100 : ℚ) ≤ s2.total_revenue :=
  (C9_external_stats_monotone
    { initial_current_metrics with
      weather_impact := fun c => if c = "Clear" then some ⟨100, 2, 50⟩ else none }
    (sample_enriched "Clear" "positive" "neutral" 10)
    (by norm_num [sample_enriched, sample_event])).1 "Clear" ⟨100, 2, 50⟩ (by simp)

theorem fetch_weather_data_ok (rl : LastCalls) (city : String) (now : ℚ)
    (http : Except PyErr WeatherApiResponse) (d : WeatherDraws) :
    ∃ v, (fetch_weather_data rl city now http d).1 = Except.ok v := by
  cases http with
  | ok r => exact ⟨_, rfl⟩
  | error e => exact ⟨_, rfl⟩

theorem fetch_stock_data_ok (rl : LastCalls) (symbol : String) (now : ℚ)
    (http : Except PyErr StockApiResponse) (d : StockDraws) :
    ∃ v, (fetch_stock_data rl symbol now http d).1 = Except.ok v := by
  cases http with
  | ok r => exact ⟨_, rfl⟩
  | error e => exact ⟨_, rfl⟩

theorem fetch_news_sentiment_ok (rl : LastCalls) (query : String) (now : ℚ)
    (http : Except PyErr NewsApiResponse) (d : NewsDraws) :
    ∃ v, (fetch_news_sentiment rl query now http d).1 = Except.ok v := by
  cases http with
  | ok r => exact ⟨_, rfl⟩
  | error e => exact ⟨_, rfl⟩

theorem get_cached_or_fetch_ok {α : Type} (truthy : α → Bool) (ttl : ℚ) (cache : Cache α)
    (now : ℚ) (key : String) (fr : Except PyErr α) (h : ∃ v, fr = Except.ok v) :
    ∃ w, (get_cached_or_fetch truthy ttl cache now key fr).1 = Except.ok w := by
  obtain ⟨v, rfl⟩ := h
  unfold get_cached_or_fetch
  by_cases hv : is_cache_valid ttl cache now key = true
  · cases hc : cache key with
    | none =>
      exfalso
      unfold is_cache_valid at hv
      rw [hc] at hv
      exact absurd hv (by simp)
    | some entry =>
      rw [if_pos hv]
      simp only [hc]
      exact ⟨_, rfl⟩
  · rw [if_neg hv]
    unfold fetch_and_store
    dsimp only
    split
    · exact ⟨_, rfl⟩
    · exact ⟨_, rfl⟩

theorem get_weather_data_ok (k : Option String) (cache : Cache WeatherData)
    (rl : LastCalls) (city : String) (now : ℚ) (http : Except PyErr WeatherApiResponse)
    (d : WeatherDraws) :
    ∃ v, (get_weather_data k cache rl city now http d).1 = Except.ok v := by
  cases k with
  | none => exact ⟨_, rfl⟩
  | some key =>
    unfold get_weather_data
    dsimp only
    exact get_cached_or_fetch_ok _ _ _ _ _ _ (fetch_weather_data_ok rl city now http d)

theorem get_stock_market_data_ok (k : Option String) (cache : Cache StockData)
    (rl : LastCalls) (symbol : String) (now : ℚ) (http : Except PyErr StockApiResponse)
    (d : StockDraws) :
    ∃ v, (get_stock_market_data k cache rl symbol now http d).1 = Except.ok v := by
  cases k with
  | none => exact ⟨_, rfl⟩
  | some key =>
    unfold get_stock_market_data
    dsimp only
    exact get_cached_or_fetch_ok _ _ _ _ _ _ (fetch_stock_data_ok rl symbol now http d)

theorem get_news_sentiment_ok (k : Option String) (cache : Cache NewsData)
    (rl : LastCalls) (query : String) (now : ℚ) (http : Except PyErr NewsApiResponse)
    (d : NewsDraws) :
    ∃ v, (get_news_sentiment k cache rl query now http d).1 = Except.ok v := by
  cases k with
  | none => exact ⟨_, rfl⟩
  | some key =>
    unfold get_news_sentiment
    dsimp only
    exact get_cached_or_fetch_ok _ _ _ _ _ _ (fetch_news_sentiment_ok rl query now http d)

/-- C6: each enrichment fetch and the composed `enrich_interaction`
return a value for every input and every network outcome — on any
failure a synthesized value of the same shape is substituted, so no
error ever reaches the caller.  `get_economic_indicators` and
`get_geographic_data` are total functions by construction and appear in
the enriched result. -/
theorem C6_enrichment_never_propagates_errors (st : ApiState) (interaction : Interaction)
    (now : ℚ) (wh : Except PyErr WeatherApiResponse) (sh : Except PyErr StockApiResponse)
    (nh : Except PyErr NewsApiResponse) (wd : WeatherDraws) (sd : StockDraws)
    (nd : NewsDraws) (ed : EconDraws) (wc : Cache WeatherData) (sc : Cache StockData)
    (nc : Cache NewsData) (rl : LastCalls) (city symbol query : String) :
    (∃ v, (get_weather_data st.weather_api_key wc rl city now wh wd).1 = Except.ok v)
    ∧ (∃ v, (get_stock_market_data st.alpha_vantage_key sc rl symbol now sh sd).1
        = Except.ok v)
    ∧ (∃ v, (get_news_sentiment st.news_api_key nc rl query now nh nd).1 = Except.ok v)
    ∧ (∃ v, (enrich_interaction st interaction now wh sh nh wd sd nd ed).1
        = Except.ok v) := by
  refine ⟨get_weather_data_ok _ _ _ _ _ _ _, get_stock_market_data_ok _ _ _ _ _ _ _,
    get_news_sentiment_ok _ _ _ _ _ _ _, ?_⟩
  unfold enrich_interaction
  dsimp only
  obtain ⟨wv, hw⟩ := get_weather_data_ok st.weather_api_key st.weather_cache
    st.last_api_calls (interaction.city.getD "New York") now wh wd
  rw [hw]
  dsimp only
  obtain ⟨sv, hs⟩ := get_stock_market_data_ok st.alpha_vantage_key st.stock_cache
    (get_weather_data st.weather_api_key st.weather_cache st.last_api_calls
      (interaction.city.getD "New York") now wh wd).2.2 "SPY" now sh sd
  rw [hs]
  dsimp only
  obtain ⟨nv, hn⟩ := get_news_sentiment_ok st.news_api_key st.news_cache
    (get_stock_market_data st.alpha_vantage_key st.stock_cache
      (get_weather_data st.weather_api_key st.weather_cache st.last_api_calls
        (interaction.city.getD "New York") now wh wd).2.2 "SPY" now sh sd).2.2
    "retail shopping" now nh nd
  rw [hn]
  exact ⟨_, rfl⟩

end CustomerBehavior
